import Mathlib

/-!
Shallow embedding of the core of the databricks-mcp-server repository:
the transport layer (src/core/utils.py, make_api_request), the chunked
upload engine (src/api/dbfs.py, upload_large_file), the SQL statement
execution engine (src/api/sql.py, execute_and_wait) and the base64
round-trip check of the notebook importer (src/api/notebooks.py,
is_base64 and import_notebook).  Remote calls are modelled as oracles of
the response (or exception) of each call; JSON values and the relevant
parts of Python dictionary/string semantics are modelled explicitly.
-/

/-- Model of a decoded JSON value (a Python object as returned by
response.json in the source). -/
inductive Json where
  | null : Json
  | bool : Bool → Json
  | num : Int → Json
  | str : String → Json
  | arr : List Json → Json
  | obj : List (String × Json) → Json

/-- Python dict.get with a default: first field with the given key, or the
default when the key is absent.  Python dictionaries have unique keys, so
the association list is looked up front to back. -/
def dictGetD (fields : List (String × Json)) (key : String) (d : Json) : Json :=
  match fields.find? (fun kv => kv.fst == key) with
  | some kv => kv.snd
  | none => d

/-- Python attribute access x.get(key, default): defined only when x is a
dictionary; none models the AttributeError Python raises otherwise. -/
def pyGet : Json → String → Json → Option Json
  | Json.obj fields, key, d => some (dictGetD fields key d)
  | _, _, _ => none

/-- Python truthiness of a decoded JSON value (if not x). -/
def pyTruthy : Json → Bool
  | Json.null => false
  | Json.bool b => b
  | Json.num n => n != 0
  | Json.str s => s.length != 0
  | Json.arr items => items.length != 0
  | Json.obj fields => fields.length != 0

/-- Python repr of a decoded JSON value (used by str on containers). -/
def pyRepr : Json → String
  | Json.null => "None"
  | Json.bool true => "True"
  | Json.bool false => "False"
  | Json.num n => toString n
  | Json.str s => "\x27" ++ s ++ "\x27"
  | Json.arr items =>
    "[" ++ String.intercalate ", " (items.attach.map (fun x => pyRepr x.val)) ++ "]"
  | Json.obj fields =>
    "\x7b" ++ String.intercalate ", "
      (fields.attach.map (fun x => "\x27" ++ x.val.fst ++ "\x27: " ++ pyRepr x.val.snd)) ++ "\x7d"
decreasing_by
  · have h := List.sizeOf_lt_of_mem x.property
    simp only [Json.arr.sizeOf_spec] <;> omega
  · have h := List.sizeOf_lt_of_mem x.property
    have h2 : sizeOf x.val.snd < sizeOf x.val := by
      obtain ⟨a, b⟩ := x.val
      simp <;> omega
    simp only [Json.obj.sizeOf_spec] <;> omega

/-- Python str of a decoded JSON value, as interpolated by an f-string. -/
def pyStr (j : Json) : String :=
  match j with
  | Json.str s => s
  | _ => pyRepr j

/-- Python comparison of a decoded JSON value with a string literal
(status == "SUCCEEDED" and the like): true only for an equal string. -/
def Json.isStrEq : Json → String → Bool
  | Json.str s, t => s == t
  | _, _ => false

/-- ASCII code of the base64 alphabet character for a 6-bit value
(A-Z, a-z, 0-9, plus, slash), as used by base64.b64encode. -/
def b64alphabet (n : Nat) : Nat :=
  if n < 26 then 65 + n
  else if n < 52 then 97 + (n - 26)
  else if n < 62 then 48 + (n - 52)
  else if n = 62 then 43
  else 47

/-- Standard base64 encoding with padding of a byte sequence, as performed
by base64.b64encode; bytes in, ASCII codes out (61 is the pad =). -/
def b64encode : List Nat → List Nat
  | [] => []
  | [a] => [b64alphabet (a / 4), b64alphabet (a % 4 * 16), 61, 61]
  | [a, b] => [b64alphabet (a / 4), b64alphabet (a % 4 * 16 + b / 16),
               b64alphabet (b % 16 * 4), 61]
  | a :: b :: c :: rest =>
    b64alphabet (a / 4) :: b64alphabet (a % 4 * 16 + b / 16) ::
      b64alphabet (b % 16 * 4 + c / 64) :: b64alphabet (c % 64) :: b64encode rest

/-- Inverse of the base64 alphabet: 6-bit value of an ASCII code, or none
for a character outside the alphabet (skipped by non-strict decoding). -/
def b64digit (ch : Nat) : Option Nat :=
  if 65 ≤ ch ∧ ch ≤ 90 then some (ch - 65)
  else if 97 ≤ ch ∧ ch ≤ 122 then some (ch - 71)
  else if 48 ≤ ch ∧ ch ≤ 57 then some (ch + 4)
  else if ch = 43 then some 62
  else if ch = 47 then some 63
  else none

/-- Bytes produced from a partial or full quantum of 6-bit values when
non-strict base64 decoding flushes at padding or a complete group. -/
def b64flushQuad : List Nat → List Nat
  | [q0, q1] => [q0 * 4 + q1 / 16]
  | [q0, q1, q2] => [q0 * 4 + q1 / 16, q1 % 16 * 16 + q2 / 4]
  | [q0, q1, q2, q3] => [q0 * 4 + q1 / 16, q1 % 16 * 16 + q2 / 4, q2 % 4 * 64 + q3]
  | _ => []

/-- CPython binascii.a2b_base64 in non-strict mode: walks the ASCII codes,
skipping characters outside the alphabet, counting pad characters seen
after at least two data characters of the current quantum, stopping and
flushing as soon as data plus pads complete a quantum, emitting three
bytes for each full quantum.  Returns none (binascii.Error) when input
ends with a partial quantum and insufficient padding. -/
def a2bBase64 : List Nat → List Nat → Nat → List Nat → Option (List Nat)
  | [], quad, _, out => if quad.length = 0 then some out else none
  | ch :: rest, quad, pads, out =>
    if ch = 61 then
      if 2 ≤ quad.length then
        if 4 ≤ quad.length + (pads + 1) then some (out ++ b64flushQuad quad)
        else a2bBase64 rest quad (pads + 1) out
      else a2bBase64 rest quad pads out
    else
      match b64digit ch with
      | none => a2bBase64 rest quad pads out
      | some v =>
        if quad.length = 3 then a2bBase64 rest [] pads (out ++ b64flushQuad (quad ++ [v]))
        else a2bBase64 rest (quad ++ [v]) pads out

/-- Python base64.b64decode on a str argument: the string must be pure
ASCII (else a ValueError from the ascii encode), then non-strict
a2b_base64 decoding; none models a raised exception.  The input string is
given as its UTF-8 bytes. -/
def pyB64decode (s : List Nat) : Option (List Nat) :=
  if s.all (fun ch => ch < 128) then a2bBase64 s [] 0 [] else none

/-- Embedding of is_base64 from src/api/notebooks.py: re-encode the
decoded content and compare with the UTF-8 bytes of the original string;
any exception during decoding yields False. -/
def is_base64 (content : List Nat) : Bool :=
  match pyB64decode content with
  | none => false
  | some bs => b64encode bs == content

/-- Content transformation performed by import_notebook in
src/api/notebooks.py: the content string (given as UTF-8 bytes) is sent
as-is when is_base64 accepts it, and base64-encoded otherwise. -/
def importNotebookContent (content : List Nat) : List Nat :=
  if is_base64 content then content else b64encode content

/-- Chunking performed by the read loop of upload_large_file in
src/api/dbfs.py: f.read(buffer_size) until an empty read; a zero
buffer_size reads empty at once and produces no chunks. -/
def chunksOf (c : Nat) (l : List Nat) : List (List Nat) :=
  if h : c = 0 ∨ l.isEmpty then []
  else l.take c :: chunksOf c (l.drop c)
termination_by l.length
decreasing_by
  simp only [not_or, List.isEmpty_iff] at h
  have : l.length ≠ 0 := fun hl => h.right (List.eq_nil_of_length_eq_zero hl)
  simp only [List.length_drop]
  omega

/-- Raw error payload attached to a DatabricksAPIError: the decoded JSON
error body, or the undecodable response text. -/
inductive RawPayload where
  | jsonPayload : Json → RawPayload
  | textPayload : String → RawPayload

/-- Embedding of the DatabricksAPIError exception of src/core/utils.py. -/
structure DatabricksAPIError where
  message : String
  status_code : Option Nat
  response : Option RawPayload

/-- Exceptions that can escape make_api_request: the normalized
DatabricksAPIError, or an AttributeError raised while folding the error
body (calling .get on a value that is not a dictionary). -/
inductive TransportExn where
  | apiError : DatabricksAPIError → TransportExn
  | attributeError : TransportExn

/-- Body of the HTTP response as the requests library exposes it: empty
content, content that decodes as JSON, or undecodable text. -/
inductive Body where
  | emptyBody : Body
  | jsonBody : Json → Body
  | textBody : String → Body

/-- Outcome of the single requests.request call issued by
make_api_request: either no response was reached (the RequestException
carries no response) or a response with a status code and a body; errStr
is the str() text of the exception requests raises for this outcome (the
HTTPError text for an error status, or the JSON decode error text). -/
inductive HttpOutcome where
  | noResponse : String → HttpOutcome
  | gotResponse : Nat → Body → String → HttpOutcome

/-- Embedding of make_api_request from src/core/utils.py over an oracle
giving the outcome of the underlying HTTP call.  raise_for_status raises
exactly for 4xx and 5xx status codes; the handler folds the error field
of a decoded JSON object body into the message, keeps the decoded body
(or the raw text of an undecodable body) as the raw payload, and calling
.get on a decoded non-object body raises an AttributeError. -/
def make_api_request (o : HttpOutcome) : Except TransportExn Json :=
  match o with
  | HttpOutcome.noResponse errStr =>
    Except.error (TransportExn.apiError
      ⟨"API request failed: " ++ errStr, none, none⟩)
  | HttpOutcome.gotResponse status body errStr =>
    if 400 ≤ status ∧ status < 600 then
      let base := "API request failed: " ++ errStr
      match body with
      | Body.jsonBody (Json.obj fields) =>
        Except.error (TransportExn.apiError
          ⟨base ++ " - " ++ pyStr (dictGetD fields "error" (Json.str "")),
           some status, some (RawPayload.jsonPayload (Json.obj fields))⟩)
      | Body.jsonBody _ => Except.error TransportExn.attributeError
      | Body.textBody t =>
        Except.error (TransportExn.apiError
          ⟨base, some status, some (RawPayload.textPayload t)⟩)
      | Body.emptyBody =>
        Except.error (TransportExn.apiError
          ⟨base, some status, some (RawPayload.textPayload "")⟩)
    else
      match body with
      | Body.emptyBody => Except.ok (Json.obj [])
      | Body.jsonBody j => Except.ok j
      | Body.textBody _ =>
        Except.error (TransportExn.apiError
          ⟨"API request failed: " ++ errStr, none, none⟩)

/-- Remote calls issued by upload_large_file of src/api/dbfs.py, with the
request payload each carries; add-block data is the base64 text of the
chunk, as ASCII codes. -/
inductive DbfsCall where
  | createUpload : String → Bool → DbfsCall
  | addBlock : Json → List Nat → DbfsCall
  | closeUpload : Json → DbfsCall

/-- Errors upload_large_file can raise: the missing-local-file
precondition error, an exception propagated from a remote call (the
oracle error type), or the AttributeError from reading the handle off a
non-dictionary open response. -/
inductive UploadErr (ε : Type) where
  | fileNotFoundError : String → UploadErr ε
  | remoteError : ε → UploadErr ε
  | attributeError : UploadErr ε

/-- Result and issued-call trace of one upload_large_file run. -/
structure UploadRun (ε : Type) where
  result : Except (UploadErr ε) Json
  calls : List DbfsCall

/-- The add-block loop of upload_large_file: sends each chunk in order
until the oracle reports a failed call, returning the error of the first
failed add-block (if any) and the trace of add-block calls issued. -/
def addBlocksLoop {ε : Type} (handle : Json) (addResp : Nat → Option ε) :
    List (List Nat) → Nat → Option ε × List DbfsCall
  | [], _ => (none, [])
  | chunk :: rest, k =>
    match addResp k with
    | some e => (some e, [DbfsCall.addBlock handle (b64encode chunk)])
    | none =>
      let r := addBlocksLoop handle addResp rest (k + 1)
      (r.fst, DbfsCall.addBlock handle (b64encode chunk) :: r.snd)

/-- Embedding of upload_large_file from src/api/dbfs.py.  The local file
is modelled by an existence flag and its byte content; the remote side by
oracles for the open call response, each add-block call outcome (indexed
by chunk number) and each close call outcome (indexed by close number).
The open call happens outside the try block, so its failure and an
AttributeError while reading the handle skip cleanup; inside the try, the
chunks are sent in order and the handle closed; on any failure inside the
try one best-effort close is issued, its outcome ignored, and the
original exception re-raised. -/
def upload_large_file {ε : Type} (dbfs_path local_file_path : String)
    (localFileExists : Bool) (content : List Nat) (overwrite : Bool)
    (buffer_size : Nat) (openResp : Except ε Json)
    (addResp : Nat → Option ε) (closeResp : Nat → Except ε Json) :
    UploadRun ε :=
  if !localFileExists then
    ⟨Except.error (UploadErr.fileNotFoundError
       ("Local file not found: " ++ local_file_path)), []⟩
  else
    match openResp with
    | Except.error e =>
      ⟨Except.error (UploadErr.remoteError e), [DbfsCall.createUpload dbfs_path overwrite]⟩
    | Except.ok createResponse =>
      match pyGet createResponse "handle" Json.null with
      | none =>
        ⟨Except.error UploadErr.attributeError, [DbfsCall.createUpload dbfs_path overwrite]⟩
      | some handle =>
        match addBlocksLoop handle addResp (chunksOf buffer_size content) 0 with
        | (some e, addCalls) =>
          ⟨Except.error (UploadErr.remoteError e),
           DbfsCall.createUpload dbfs_path overwrite ::
             addCalls ++ [DbfsCall.closeUpload handle]⟩
        | (none, addCalls) =>
          match closeResp 0 with
          | Except.ok r =>
            ⟨Except.ok r,
             DbfsCall.createUpload dbfs_path overwrite ::
               addCalls ++ [DbfsCall.closeUpload handle]⟩
          | Except.error e =>
            ⟨Except.error (UploadErr.remoteError e),
             DbfsCall.createUpload dbfs_path overwrite ::
               addCalls ++ [DbfsCall.closeUpload handle, DbfsCall.closeUpload handle]⟩

/-- Whether a DBFS call is a close call. -/
def isCloseCall : DbfsCall → Bool
  | DbfsCall.closeUpload _ => true
  | _ => false

/-- Data payloads of the add-block calls of a trace, in call order. -/
def addBlockDatas (calls : List DbfsCall) : List (List Nat) :=
  calls.filterMap fun c =>
    match c with
    | DbfsCall.addBlock _ d => some d
    | _ => none

/-- Exceptions that can escape execute_and_wait of src/api/sql.py: a
DatabricksAPIError (raised for a terminal failure state, or propagated
from a failed status poll), the ValueError for a missing statement
identifier, the TimeoutError of the poll loop, or an AttributeError from
a .get chain applied to a non-dictionary value. -/
inductive SqlExn where
  | apiError : DatabricksAPIError → SqlExn
  | valueError : String → SqlExn
  | timeoutError : String → SqlExn
  | attributeError : SqlExn

/-- Remote calls the statement engine can issue after submission: a
status poll (get_statement_status) or a cancel (cancel_statement, which
execute_and_wait never issues). -/
inductive SqlCall where
  | pollStatus : Json → SqlCall
  | cancelStatement : Json → SqlCall

/-- Result and issued-call trace of one execute_and_wait run after the
submission response has been received. -/
structure SqlRun where
  result : Except SqlExn Json
  calls : List SqlCall

/-- The expression response.get("status", default-empty-dict).get("state",
default-empty-string) of src/api/sql.py; none models an AttributeError
(the value under status is not a dictionary). -/
def pyStatusState (r : Json) : Option Json :=
  (pyGet r "status" (Json.obj [])).bind fun st => pyGet st "state" (Json.str "")

/-- The expression status_response.get("status", default).get("error",
default).get("message", the string Unknown error) of src/api/sql.py. -/
def pyFailureMessage (r : Json) : Option Json :=
  (pyGet r "status" (Json.obj [])).bind fun st =>
    (pyGet st "error" (Json.obj [])).bind fun er =>
      pyGet er "message" (Json.str "Unknown error")

/-- The loop condition status in the list PENDING, RUNNING. -/
def stateIsPendingOrRunning (s : Json) : Bool :=
  Json.isStrEq s "PENDING" || Json.isStrEq s "RUNNING"

/-- The check status in the list FAILED, CANCELED, CLOSED. -/
def stateIsTerminalFailure (s : Json) : Bool :=
  Json.isStrEq s "FAILED" || Json.isStrEq s "CANCELED" || Json.isStrEq s "CLOSED"

/-- The poll loop of execute_and_wait.  Time is modelled discretely: only
the sleep before each poll advances the clock, so before the k-th poll
the elapsed time since submission is k times the poll interval; the loop
checks the timeout before sleeping and polling.  polls is the oracle for
get_statement_status (the k-th poll may itself raise).  The extra fuel
argument bounds the recursion; none models a run that exhausts it, which
cannot happen for a positive poll interval and sufficient fuel. -/
def pollLoop (sid : Json) (polls : Nat → Except DatabricksAPIError Json)
    (timeout_seconds poll_interval_seconds : Nat) :
    Nat → Nat → Json → Json → Option SqlRun
  | 0, _, _, _ => none
  | fuel + 1, k, status, response =>
    if stateIsPendingOrRunning status then
      if k * poll_interval_seconds > timeout_seconds then
        some ⟨Except.error (SqlExn.timeoutError
          ("Query execution timed out after " ++ toString timeout_seconds ++ " seconds")), []⟩
      else
        match polls k with
        | Except.error e => some ⟨Except.error (SqlExn.apiError e), [SqlCall.pollStatus sid]⟩
        | Except.ok sr =>
          match pyStatusState sr with
          | none => some ⟨Except.error SqlExn.attributeError, [SqlCall.pollStatus sid]⟩
          | some st =>
            if Json.isStrEq st "SUCCEEDED" then
              some ⟨Except.ok sr, [SqlCall.pollStatus sid]⟩
            else if stateIsTerminalFailure st then
              match pyFailureMessage sr with
              | none => some ⟨Except.error SqlExn.attributeError, [SqlCall.pollStatus sid]⟩
              | some em =>
                some ⟨Except.error (SqlExn.apiError
                  ⟨"Query execution failed: " ++ pyStr em, none,
                   some (RawPayload.jsonPayload sr)⟩), [SqlCall.pollStatus sid]⟩
            else
              (pollLoop sid polls timeout_seconds poll_interval_seconds fuel (k + 1) st response).map
                (fun out => ⟨out.result, SqlCall.pollStatus sid :: out.calls⟩)
    else some ⟨Except.ok response, []⟩

/-- Embedding of execute_and_wait from src/api/sql.py, starting from the
received submission response: read and validate the statement identifier,
read the initial state off the submission response, then run the poll
loop.  The fuel given to the loop is enough for any positive poll
interval, since the loop times out once k times the interval exceeds the
timeout. -/
def execute_and_wait (response : Json)
    (polls : Nat → Except DatabricksAPIError Json)
    (timeout_seconds poll_interval_seconds : Nat) : Option SqlRun :=
  match pyGet response "statement_id" Json.null with
  | none => some ⟨Except.error SqlExn.attributeError, []⟩
  | some sid =>
    if !pyTruthy sid then
      some ⟨Except.error (SqlExn.valueError "No statement_id returned from execution"), []⟩
    else
      match pyStatusState response with
      | none => some ⟨Except.error SqlExn.attributeError, []⟩
      | some status =>
        pollLoop sid polls timeout_seconds poll_interval_seconds
          (timeout_seconds + 2) 0 status response

theorem isStrEq_true_iff (s : Json) (t : String) :
    Json.isStrEq s t = true ↔ s = Json.str t := by
  cases s <;> simp [Json.isStrEq]

theorem pr_not_succeeded {s : Json} (h : stateIsPendingOrRunning s = true) :
    Json.isStrEq s "SUCCEEDED" = false := by
  rcases Bool.or_eq_true_iff.mp h with h1 | h1 <;>
    rw [(isStrEq_true_iff s _).mp h1] <;> decide

theorem pr_not_failure {s : Json} (h : stateIsPendingOrRunning s = true) :
    stateIsTerminalFailure s = false := by
  rcases Bool.or_eq_true_iff.mp h with h1 | h1 <;>
    rw [(isStrEq_true_iff s _).mp h1] <;> decide

theorem b64encode_length : ∀ l : List Nat, (b64encode l).length = 4 * ((l.length + 2) / 3)
  | [] => rfl
  | [_] => by simp [b64encode]
  | [_, _] => by simp [b64encode]
  | _ :: _ :: _ :: rest => by
    have ih := b64encode_length rest
    simp only [b64encode, List.length_cons, ih]
    omega

/-- C9: import_notebook sends the content string unchanged exactly when
the is_base64 round-trip check holds (re-encoding the decoded string
reproduces its UTF-8 bytes with no decode error), and otherwise sends its
base64 encoding; moreover the plain-text string abcd (UTF-8 bytes 97, 98,
99, 100) passes the round-trip check and is therefore sent unchanged,
mis-classified as already encoded.  Content strings are represented by
their UTF-8 bytes. -/
theorem C9_import_roundtrip_check :
    (∀ content : List Nat,
      importNotebookContent content = content ↔ is_base64 content = true)
    ∧ "abcd".data.map Char.toNat = [97, 98, 99, 100]
    ∧ is_base64 [97, 98, 99, 100] = true
    ∧ importNotebookContent [97, 98, 99, 100] = [97, 98, 99, 100] := by
  refine ⟨fun content => ⟨fun h => ?_, fun h => by simp [importNotebookContent, h]⟩,
    by decide, by decide, by decide⟩
  by_contra hb
  have hb : is_base64 content = false := by
    cases hx : is_base64 content
    · rfl
    · exact absurd hx hb
  rw [importNotebookContent, hb] at h
  simp only [Bool.false_eq_true, if_false] at h
  have hlen := b64encode_length content
  rw [h] at hlen
  rcases Nat.eq_zero_or_pos content.length with h0 | h0
  · have : content = [] := List.eq_nil_of_length_eq_zero h0
    subst this
    exact absurd hb (by decide)
  · omega

/-- C9 witness: the round-trip theorem applied at the concrete content
with bytes 104, 105 (the plain text hi), which fails the round-trip check
and is therefore re-encoded before sending. -/
theorem C9_witness :
    importNotebookContent [104, 105] = b64encode [104, 105] := by
  have h := (C9_import_roundtrip_check.1 [104, 105])
  have hb : is_base64 [104, 105] = false := by decide
  cases hx : importNotebookContent [104, 105] == [104, 105]
  · simp [importNotebookContent, hb]
  · exact absurd (hb ▸ h.mp (by exact eq_of_beq hx)) (by decide)

/-- C7: when the submission response carries a truthy statement
identifier and already reports state SUCCEEDED, the poll loop is never
entered: for every poll oracle the engine issues zero remote calls and
returns the submission response unchanged. -/
theorem C7_submission_succeeded_no_polls (response : Json)
    (polls : Nat → Except DatabricksAPIError Json)
    (timeout_seconds poll_interval_seconds : Nat) (sid : Json)
    (hsid : pyGet response "statement_id" Json.null = some sid)
    (htruthy : pyTruthy sid = true)
    (hstate : pyStatusState response = some (Json.str "SUCCEEDED")) :
    execute_and_wait response polls timeout_seconds poll_interval_seconds
      = some ⟨Except.ok response, []⟩ := by
  rw [execute_and_wait, hsid]
  simp only [htruthy, Bool.not_true, Bool.false_eq_true, if_false, hstate]
  have : timeout_seconds + 2 = (timeout_seconds + 1) + 1 := rfl
  rw [this, pollLoop]
  simp [stateIsPendingOrRunning, Json.isStrEq]

/-- C7 witness: the zero-poll theorem applied to a concrete submission
response that already reports SUCCEEDED, with a poll oracle that would
report FAILED if it were ever consulted. -/
theorem C7_witness :
    execute_and_wait
      (Json.obj [("statement_id", Json.str "s1"),
                 ("status", Json.obj [("state", Json.str "SUCCEEDED")])])
      (fun _ => Except.ok (Json.obj [("status", Json.obj [("state", Json.str "FAILED")])]))
      300 1
      = some ⟨Except.ok (Json.obj [("statement_id", Json.str "s1"),
                 ("status", Json.obj [("state", Json.str "SUCCEEDED")])]), []⟩ :=
  C7_submission_succeeded_no_polls _ _ 300 1 (Json.str "s1") rfl rfl rfl

theorem chunksOf_nil (c : Nat) : chunksOf c [] = [] := by
  rw [chunksOf]
  simp

theorem chunksOf_zero (l : List Nat) : chunksOf 0 l = [] := by
  rw [chunksOf]
  simp

theorem chunksOf_cons (c : Nat) (l : List Nat) (hc : c ≠ 0) (hl : l ≠ []) :
    chunksOf c l = l.take c :: chunksOf c (l.drop c) := by
  rw [chunksOf]
  simp [hc, hl]

/-- C1 counterexample: a submission response that already reports the
terminal failure state FAILED (with a statement identifier present) makes
the loop condition false immediately, so execute_and_wait returns that
failure-state response as a normal result with zero polls, instead of
raising an error as the claim states. -/
theorem C1_counterexample :
    execute_and_wait
      (Json.obj [("statement_id", Json.str "s1"),
                 ("status", Json.obj [("state", Json.str "FAILED")])])
      (fun _ => Except.ok Json.null) 300 1
      = some ⟨Except.ok (Json.obj [("statement_id", Json.str "s1"),
                 ("status", Json.obj [("state", Json.str "FAILED")])]), []⟩
    ∧ pyStatusState
        (Json.obj [("statement_id", Json.str "s1"),
                   ("status", Json.obj [("state", Json.str "FAILED")])])
      = some (Json.str "FAILED") :=
  ⟨rfl, rfl⟩

/-- C3 counterexample: a poll that reports FAILED with no error detail
makes execute_and_wait raise a DatabricksAPIError whose message is the
string Query execution failed: Unknown error, which differs from the
plain string Unknown error required by the claim. -/
theorem C3_counterexample :
    execute_and_wait
      (Json.obj [("statement_id", Json.str "s1"),
                 ("status", Json.obj [("state", Json.str "PENDING")])])
      (fun _ => Except.ok (Json.obj [("status", Json.obj [("state", Json.str "FAILED")])]))
      300 1
      = some ⟨Except.error (SqlExn.apiError
          ⟨"Query execution failed: Unknown error", none,
           some (RawPayload.jsonPayload
             (Json.obj [("status", Json.obj [("state", Json.str "FAILED")])]))⟩),
          [SqlCall.pollStatus (Json.str "s1")]⟩
    ∧ "Query execution failed: Unknown error" ≠ "Unknown error" :=
  ⟨rfl, by decide⟩

/-- C2 counterexample: when every add-block call succeeds but the final
commit close call fails, the except block issues a second best-effort
close, so a single upload with a successful open issues two close calls,
contradicting the exactly-once claim. -/
theorem C2_counterexample :
    upload_large_file "/dbfs/big.bin" "/local/big.bin" true [] true (1024 * 1024)
      (Except.ok (Json.obj [("handle", Json.num 7)]))
      (fun _ => none) (fun _ => Except.error "close failed")
      = ⟨Except.error (UploadErr.remoteError "close failed"),
         [DbfsCall.createUpload "/dbfs/big.bin" true,
          DbfsCall.closeUpload (Json.num 7), DbfsCall.closeUpload (Json.num 7)]⟩
    ∧ (upload_large_file "/dbfs/big.bin" "/local/big.bin" true [] true (1024 * 1024)
        (Except.ok (Json.obj [("handle", Json.num 7)]))
        (fun _ => none) (fun _ => Except.error "close failed")).calls.countP isCloseCall
      = 2 := by
  have h : upload_large_file "/dbfs/big.bin" "/local/big.bin" true [] true (1024 * 1024)
      (Except.ok (Json.obj [("handle", Json.num 7)]))
      (fun _ => none) (fun _ => Except.error "close failed")
      = (⟨Except.error (UploadErr.remoteError "close failed"),
         [DbfsCall.createUpload "/dbfs/big.bin" true,
          DbfsCall.closeUpload (Json.num 7), DbfsCall.closeUpload (Json.num 7)]⟩ :
          UploadRun String) := by
    simp [upload_large_file, chunksOf_nil, addBlocksLoop, pyGet, dictGetD]
  refine ⟨h, ?_⟩
  rw [h]
  rfl

/-- C4 counterexample: a 404 response whose body decodes to a JSON array
makes the error handler call .get on a list, so an AttributeError (not a
DatabricksAPIError) escapes make_api_request, contradicting the claim
that a non-2xx status always results in a raised DatabricksAPIError and
that no other kind of exception escapes. -/
theorem C4_counterexample :
    make_api_request
      (HttpOutcome.gotResponse 404 (Body.jsonBody (Json.arr []))
        "404 Client Error: Not Found")
      = Except.error TransportExn.attributeError
    ∧ (match make_api_request
        (HttpOutcome.gotResponse 404 (Body.jsonBody (Json.arr []))
          "404 Client Error: Not Found") with
       | Except.error (TransportExn.apiError _) => False
       | _ => True) :=
  ⟨rfl, trivial⟩

theorem pollLoop_ok_inv (sid : Json) (polls : Nat → Except DatabricksAPIError Json)
    (t i : Nat) (response : Json) :
    ∀ fuel k status run r,
      pollLoop sid polls t i fuel k status response = some run →
      run.result = Except.ok r →
      r = response ∨ pyStatusState r = some (Json.str "SUCCEEDED") := by
  intro fuel
  induction fuel with
  | zero =>
    intro k status run r h _
    simp [pollLoop] at h
  | succ fuel ih =>
    intro k status run r h hr
    rw [pollLoop] at h
    split at h
    · split at h
      · rw [Option.some_inj] at h
        subst h
        simp at hr
      · split at h
        · rw [Option.some_inj] at h
          subst h
          simp at hr
        · rename_i sr hp
          split at h
          · rw [Option.some_inj] at h
            subst h
            simp at hr
          · rename_i st hs
            split at h
            · rename_i hsu
              rw [Option.some_inj] at h
              subst h
              simp only [Except.ok.injEq] at hr
              subst hr
              right
              rw [hs, (isStrEq_true_iff st _).mp hsu]
            · split at h
              · split at h
                · rw [Option.some_inj] at h
                  subst h
                  simp at hr
                · rw [Option.some_inj] at h
                  subst h
                  simp at hr
              · cases hrec : pollLoop sid polls t i fuel (k + 1) st response with
                | none =>
                  rw [hrec] at h
                  simp at h
                | some out =>
                  rw [hrec] at h
                  simp only [Option.map_some'] at h
                  rw [Option.some_inj] at h
                  refine ih (k + 1) st out r hrec ?_
                  rw [← h] at hr
                  exact hr
    · rw [Option.some_inj] at h
      subst h
      simp only [Except.ok.injEq] at hr
      subst hr
      left
      rfl

theorem failure_not_succeeded {s : Json} (h : stateIsTerminalFailure s = true) :
    Json.isStrEq s "SUCCEEDED" = false := by
  rcases Bool.or_eq_true_iff.mp h with h1 | h1
  · rcases Bool.or_eq_true_iff.mp h1 with h2 | h2 <;>
      rw [(isStrEq_true_iff s _).mp h2] <;> decide
  · rw [(isStrEq_true_iff s _).mp h1]; decide

theorem pollLoop_unknown (sid : Json) (polls : Nat → Except DatabricksAPIError Json)
    (t i : Nat) (response : Json) (sr stq : Nat → Json) (m : Nat) (rm stm : Json)
    (hpolls : ∀ j, j < m → polls j = Except.ok (sr j) ∧
      pyStatusState (sr j) = some (stq j) ∧ stateIsPendingOrRunning (stq j) = true)
    (htime : ∀ j, j ≤ m → j * i ≤ t)
    (hm : polls m = Except.ok rm)
    (hstm : pyStatusState rm = some stm)
    (hnpr : stateIsPendingOrRunning stm = false)
    (hnsu : Json.isStrEq stm "SUCCEEDED" = false)
    (hnf : stateIsTerminalFailure stm = false) :
    ∀ fuel k status, k ≤ m → stateIsPendingOrRunning status = true →
      m + 2 - k ≤ fuel →
      pollLoop sid polls t i fuel k status response
        = some ⟨Except.ok response, List.replicate (m + 1 - k) (SqlCall.pollStatus sid)⟩ := by
  intro fuel
  induction fuel with
  | zero =>
    intro k status hk _ hfuel
    omega
  | succ fuel ih =>
    intro k status hk hpr hfuel
    have hkt : ¬ (k * i > t) := Nat.not_lt.mpr (htime k (by omega))
    rw [pollLoop, if_pos hpr, if_neg hkt]
    rcases Nat.lt_or_ge k m with hkm | hkm
    · obtain ⟨hpk, hsk, hprk⟩ := hpolls k hkm
      simp only [hpk, hsk, pr_not_succeeded hprk, pr_not_failure hprk,
        Bool.false_eq_true, if_false]
      rw [ih (k + 1) (stq k) (by omega) hprk (by omega)]
      simp only [Option.map_some']
      have : m + 1 - k = (m + 1 - (k + 1)) + 1 := by omega
      rw [this, List.replicate_succ]
    · have hkm : k = m := by omega
      subst hkm
      simp only [hm, hstm, hnsu, hnf, Bool.false_eq_true, if_false]
      have hfuel2 : ∃ f, fuel = f + 1 := ⟨fuel - 1, by omega⟩
      obtain ⟨f, hf⟩ := hfuel2
      subst hf
      rw [pollLoop, if_neg (by simp [hnpr])]
      simp only [Option.map_some']
      simp only [Nat.add_sub_cancel_left, List.replicate_succ, List.replicate_zero]

theorem pollLoop_failure (sid : Json) (polls : Nat → Except DatabricksAPIError Json)
    (t i : Nat) (response : Json) (sr stq : Nat → Json) (m : Nat) (rm stm em : Json)
    (hpolls : ∀ j, j < m → polls j = Except.ok (sr j) ∧
      pyStatusState (sr j) = some (stq j) ∧ stateIsPendingOrRunning (stq j) = true)
    (htime : ∀ j, j ≤ m → j * i ≤ t)
    (hm : polls m = Except.ok rm)
    (hstm : pyStatusState rm = some stm)
    (hfail : stateIsTerminalFailure stm = true)
    (hmsg : pyFailureMessage rm = some em) :
    ∀ fuel k status, k ≤ m → stateIsPendingOrRunning status = true →
      m + 2 - k ≤ fuel →
      pollLoop sid polls t i fuel k status response
        = some ⟨Except.error (SqlExn.apiError
            ⟨"Query execution failed: " ++ pyStr em, none,
             some (RawPayload.jsonPayload rm)⟩),
            List.replicate (m + 1 - k) (SqlCall.pollStatus sid)⟩ := by
  intro fuel
  induction fuel with
  | zero =>
    intro k status hk _ hfuel
    omega
  | succ fuel ih =>
    intro k status hk hpr hfuel
    have hkt : ¬ (k * i > t) := Nat.not_lt.mpr (htime k (by omega))
    rw [pollLoop, if_pos hpr, if_neg hkt]
    rcases Nat.lt_or_ge k m with hkm | hkm
    · obtain ⟨hpk, hsk, hprk⟩ := hpolls k hkm
      simp only [hpk, hsk, pr_not_succeeded hprk, pr_not_failure hprk,
        Bool.false_eq_true, if_false]
      rw [ih (k + 1) (stq k) (by omega) hprk (by omega)]
      simp only [Option.map_some']
      have : m + 1 - k = (m + 1 - (k + 1)) + 1 := by omega
      rw [this, List.replicate_succ]
    · have hkm : k = m := by omega
      subst hkm
      simp only [hm, hstm, failure_not_succeeded hfail, Bool.false_eq_true, if_false,
        hfail, if_true, hmsg]
      have : k + 1 - k = 1 := by omega
      rw [this, List.replicate_one]

theorem pollLoop_timeout (sid : Json) (polls : Nat → Except DatabricksAPIError Json)
    (t i : Nat) (response : Json) (sr stq : Nat → Json)
    (hpolls : ∀ j, polls j = Except.ok (sr j) ∧
      pyStatusState (sr j) = some (stq j) ∧ stateIsPendingOrRunning (stq j) = true)
    (hi : 1 ≤ i) :
    ∀ fuel k status, k ≤ t / i + 1 → stateIsPendingOrRunning status = true →
      (t / i + 2) - k ≤ fuel →
      pollLoop sid polls t i fuel k status response
        = some ⟨Except.error (SqlExn.timeoutError
            ("Query execution timed out after " ++ toString t ++ " seconds")),
            List.replicate (t / i + 1 - k) (SqlCall.pollStatus sid)⟩ := by
  intro fuel
  induction fuel with
  | zero =>
    intro k status hk _ hfuel
    omega
  | succ fuel ih =>
    intro k status hk hpr hfuel
    rcases Nat.lt_or_ge k (t / i + 1) with hkm | hkm
    · have hkt : ¬ (k * i > t) := by
        have h1 : k * i ≤ (t / i) * i := Nat.mul_le_mul_right i (by omega)
        have h2 : (t / i) * i ≤ t := Nat.div_mul_le_self t i
        omega
      rw [pollLoop, if_pos hpr, if_neg hkt]
      obtain ⟨hpk, hsk, hprk⟩ := hpolls k
      simp only [hpk, hsk, pr_not_succeeded hprk, pr_not_failure hprk,
        Bool.false_eq_true, if_false]
      rw [ih (k + 1) (stq k) (by omega) hprk (by omega)]
      simp only [Option.map_some']
      have : t / i + 1 - k = (t / i + 1 - (k + 1)) + 1 := by omega
      rw [this, List.replicate_succ]
    · have hkm : k = t / i + 1 := by omega
      have hkt : k * i > t := by
        rw [hkm]
        exact (Nat.div_lt_iff_lt_mul (by omega : 0 < i)).mp (Nat.lt_succ_self (t / i))
      rw [pollLoop, if_pos hpr, if_pos hkt]
      have hz : t / i + 1 - k = 0 := by omega
      rw [hz, List.replicate_zero]

theorem execute_and_wait_eq (response : Json)
    (polls : Nat → Except DatabricksAPIError Json) (t i : Nat) (sid st0 : Json)
    (hsid : pyGet response "statement_id" Json.null = some sid)
    (htruthy : pyTruthy sid = true)
    (hst : pyStatusState response = some st0) :
    execute_and_wait response polls t i = pollLoop sid polls t i (t + 2) 0 st0 response := by
  rw [execute_and_wait, hsid]
  simp only [htruthy, Bool.not_true, Bool.false_eq_true, if_false, hst]

/-- C1 amended: a terminal failure state observed through a status poll is
never returned as a normal result — any response execute_and_wait returns
normally is either the submission response itself or carries state
SUCCEEDED — but, contrary to the original claim, a terminal failure state
already present in the submission response is returned as a normal result
(see the counterexample). -/
theorem C1_amended_no_failure_result (response : Json)
    (polls : Nat → Except DatabricksAPIError Json) (t i : Nat)
    (run : SqlRun) (r : Json)
    (hrun : execute_and_wait response polls t i = some run)
    (hok : run.result = Except.ok r) :
    r = response ∨ pyStatusState r = some (Json.str "SUCCEEDED") := by
  rw [execute_and_wait] at hrun
  split at hrun
  · rw [Option.some_inj] at hrun
    subst hrun
    simp at hok
  · rename_i sid hg
    split at hrun
    · rw [Option.some_inj] at hrun
      subst hrun
      simp at hok
    · split at hrun
      · rw [Option.some_inj] at hrun
        subst hrun
        simp at hok
      · rename_i st0 hst
        exact pollLoop_ok_inv sid polls t i response (t + 2) 0 st0 run r hrun hok

/-- C1 witness: the amended theorem applied to a concrete run in which
the first poll reports SUCCEEDED, so the returned response is the
submission response or carries state SUCCEEDED. -/
theorem C1_witness :
    Json.obj [("status", Json.obj [("state", Json.str "SUCCEEDED")])]
        = Json.obj [("statement_id", Json.str "s1"),
                    ("status", Json.obj [("state", Json.str "PENDING")])]
      ∨ pyStatusState (Json.obj [("status", Json.obj [("state", Json.str "SUCCEEDED")])])
        = some (Json.str "SUCCEEDED") :=
  C1_amended_no_failure_result
    (Json.obj [("statement_id", Json.str "s1"),
               ("status", Json.obj [("state", Json.str "PENDING")])])
    (fun _ => Except.ok (Json.obj [("status", Json.obj [("state", Json.str "SUCCEEDED")])]))
    300 1
    ⟨Except.ok (Json.obj [("status", Json.obj [("state", Json.str "SUCCEEDED")])]),
     [SqlCall.pollStatus (Json.str "s1")]⟩
    (Json.obj [("status", Json.obj [("state", Json.str "SUCCEEDED")])])
    rfl rfl

/-- C10: when the submission response has a truthy statement identifier
and a PENDING or RUNNING state, and after m polls that stay PENDING or
RUNNING the next poll reports a state outside the six lifecycle states
(for example a missing status field, read as the empty string), the poll
loop exits and execute_and_wait returns the original submission response
— not the last poll response — as a normal result, with m + 1 polls
issued. -/
theorem C10_unknown_state_returns_submission (response : Json)
    (polls : Nat → Except DatabricksAPIError Json) (t i m : Nat)
    (sid st0 : Json) (sr stq : Nat → Json) (rm stm : Json)
    (hsid : pyGet response "statement_id" Json.null = some sid)
    (htruthy : pyTruthy sid = true)
    (hst0 : pyStatusState response = some st0)
    (hpr0 : stateIsPendingOrRunning st0 = true)
    (hi : 1 ≤ i)
    (hreach : m * i ≤ t)
    (hpolls : ∀ j, j < m → polls j = Except.ok (sr j) ∧
      pyStatusState (sr j) = some (stq j) ∧ stateIsPendingOrRunning (stq j) = true)
    (hm : polls m = Except.ok rm)
    (hstm : pyStatusState rm = some stm)
    (hnpr : stateIsPendingOrRunning stm = false)
    (hnsu : Json.isStrEq stm "SUCCEEDED" = false)
    (hnf : stateIsTerminalFailure stm = false) :
    execute_and_wait response polls t i
      = some ⟨Except.ok response, List.replicate (m + 1) (SqlCall.pollStatus sid)⟩ := by
  rw [execute_and_wait_eq response polls t i sid st0 hsid htruthy hst0]
  have htime : ∀ j, j ≤ m → j * i ≤ t := fun j hj =>
    le_trans (Nat.mul_le_mul_right i hj) hreach
  have hmt : m ≤ t := by
    have h1 := Nat.mul_le_mul_left m hi
    rw [Nat.mul_one] at h1
    exact le_trans h1 hreach
  rw [pollLoop_unknown sid polls t i response sr stq m rm stm hpolls htime hm hstm
    hnpr hnsu hnf (t + 2) 0 st0 (by omega) hpr0 (by omega)]
  rfl

/-- C10 witness: the theorem applied to a concrete run with one PENDING
poll followed by a poll whose response has no status field; the
submission response is returned with two polls issued. -/
theorem C10_witness :
    execute_and_wait
      (Json.obj [("statement_id", Json.str "s1"),
                 ("status", Json.obj [("state", Json.str "PENDING")])])
      (fun j => if j = 0
        then Except.ok (Json.obj [("status", Json.obj [("state", Json.str "PENDING")])])
        else Except.ok (Json.obj []))
      300 1
      = some ⟨Except.ok (Json.obj [("statement_id", Json.str "s1"),
                 ("status", Json.obj [("state", Json.str "PENDING")])]),
          List.replicate 2 (SqlCall.pollStatus (Json.str "s1"))⟩ :=
  C10_unknown_state_returns_submission
    (Json.obj [("statement_id", Json.str "s1"),
               ("status", Json.obj [("state", Json.str "PENDING")])])
    (fun j => if j = 0
      then Except.ok (Json.obj [("status", Json.obj [("state", Json.str "PENDING")])])
      else Except.ok (Json.obj []))
    300 1 1 (Json.str "s1") (Json.str "PENDING")
    (fun _ => Json.obj [("status", Json.obj [("state", Json.str "PENDING")])])
    (fun _ => Json.str "PENDING")
    (Json.obj []) (Json.str "")
    rfl rfl rfl rfl (by omega) (by omega)
    (fun j hj => by
      have hj0 : j = 0 := by omega
      subst hj0
      exact ⟨rfl, rfl, rfl⟩)
    rfl rfl rfl rfl rfl

/-- C3 amended: when a poll reports the terminal state FAILED through a
status object that carries no error detail (the error field lookup falls
back to the empty default), execute_and_wait raises a DatabricksAPIError
whose message is exactly the string Query execution failed: Unknown error
— the documented default Unknown error is folded into a longer message,
not raised verbatim as the original claim states (see the
counterexample). -/
theorem C3_amended_failed_default_message (response : Json)
    (polls : Nat → Except DatabricksAPIError Json) (t i m : Nat)
    (sid st0 : Json) (sr stq : Nat → Json) (rm : Json) (stObj : List (String × Json))
    (hsid : pyGet response "statement_id" Json.null = some sid)
    (htruthy : pyTruthy sid = true)
    (hst0 : pyStatusState response = some st0)
    (hpr0 : stateIsPendingOrRunning st0 = true)
    (hi : 1 ≤ i)
    (hreach : m * i ≤ t)
    (hpolls : ∀ j, j < m → polls j = Except.ok (sr j) ∧
      pyStatusState (sr j) = some (stq j) ∧ stateIsPendingOrRunning (stq j) = true)
    (hm : polls m = Except.ok rm)
    (hstatus : pyGet rm "status" (Json.obj []) = some (Json.obj stObj))
    (hstate : dictGetD stObj "state" (Json.str "") = Json.str "FAILED")
    (hnoerr : dictGetD stObj "error" (Json.obj []) = Json.obj []) :
    execute_and_wait response polls t i
      = some ⟨Except.error (SqlExn.apiError
          ⟨"Query execution failed: Unknown error", none,
           some (RawPayload.jsonPayload rm)⟩),
          List.replicate (m + 1) (SqlCall.pollStatus sid)⟩ := by
  rw [execute_and_wait_eq response polls t i sid st0 hsid htruthy hst0]
  have htime : ∀ j, j ≤ m → j * i ≤ t := fun j hj =>
    le_trans (Nat.mul_le_mul_right i hj) hreach
  have hmt : m ≤ t := by
    have h1 := Nat.mul_le_mul_left m hi
    rw [Nat.mul_one] at h1
    exact le_trans h1 hreach
  have hstm : pyStatusState rm = some (Json.str "FAILED") := by
    rw [pyStatusState, hstatus]
    simp only [Option.bind, pyGet, hstate]
  have hmsg : pyFailureMessage rm = some (Json.str "Unknown error") := by
    rw [pyFailureMessage, hstatus]
    simp only [Option.bind, pyGet, hnoerr]
    rfl
  rw [pollLoop_failure sid polls t i response sr stq m rm (Json.str "FAILED")
    (Json.str "Unknown error") hpolls htime hm hstm (by decide) hmsg
    (t + 2) 0 st0 (by omega) hpr0 (by omega)]
  rfl

/-- C3 witness: the amended theorem applied to a concrete run whose
single poll reports FAILED with a status object containing only the state
field, yielding the message Query execution failed: Unknown error. -/
theorem C3_witness :
    execute_and_wait
      (Json.obj [("statement_id", Json.str "s1"),
                 ("status", Json.obj [("state", Json.str "PENDING")])])
      (fun _ => Except.ok (Json.obj [("status", Json.obj [("state", Json.str "FAILED")])]))
      300 1
      = some ⟨Except.error (SqlExn.apiError
          ⟨"Query execution failed: Unknown error", none,
           some (RawPayload.jsonPayload
             (Json.obj [("status", Json.obj [("state", Json.str "FAILED")])]))⟩),
          List.replicate 1 (SqlCall.pollStatus (Json.str "s1"))⟩ :=
  C3_amended_failed_default_message
    (Json.obj [("statement_id", Json.str "s1"),
               ("status", Json.obj [("state", Json.str "PENDING")])])
    (fun _ => Except.ok (Json.obj [("status", Json.obj [("state", Json.str "FAILED")])]))
    300 1 0 (Json.str "s1") (Json.str "PENDING")
    (fun _ => Json.null) (fun _ => Json.null)
    (Json.obj [("status", Json.obj [("state", Json.str "FAILED")])])
    [("state", Json.str "FAILED")]
    rfl rfl rfl rfl (by omega) (by omega)
    (fun j hj => absurd hj (by omega))
    rfl rfl rfl rfl

/-- C8: when every poll keeps reporting PENDING or RUNNING, the engine
raises a TimeoutError after issuing exactly timeout-div-interval plus one
polls: the timeout is checked before each poll against the elapsed time
since submission (each poll is preceded by one interval-long sleep), no
further poll follows the check that trips, every issued call is a status
poll (in particular no remote cancel is ever issued), and at least one
poll is issued before the error — with a timeout of one poll interval,
two polls occur. -/
theorem C8_timeout_behavior (response : Json)
    (polls : Nat → Except DatabricksAPIError Json) (t i : Nat)
    (sid st0 : Json) (sr stq : Nat → Json)
    (hsid : pyGet response "statement_id" Json.null = some sid)
    (htruthy : pyTruthy sid = true)
    (hst0 : pyStatusState response = some st0)
    (hpr0 : stateIsPendingOrRunning st0 = true)
    (hi : 1 ≤ i)
    (hpolls : ∀ j, polls j = Except.ok (sr j) ∧
      pyStatusState (sr j) = some (stq j) ∧ stateIsPendingOrRunning (stq j) = true) :
    execute_and_wait response polls t i
      = some ⟨Except.error (SqlExn.timeoutError
          ("Query execution timed out after " ++ toString t ++ " seconds")),
          List.replicate (t / i + 1) (SqlCall.pollStatus sid)⟩
    ∧ 1 ≤ t / i + 1
    ∧ (∀ run, execute_and_wait response polls t i = some run →
        ∀ c ∈ run.calls, c = SqlCall.pollStatus sid) := by
  have hmain : execute_and_wait response polls t i
      = some ⟨Except.error (SqlExn.timeoutError
          ("Query execution timed out after " ++ toString t ++ " seconds")),
          List.replicate (t / i + 1) (SqlCall.pollStatus sid)⟩ := by
    rw [execute_and_wait_eq response polls t i sid st0 hsid htruthy hst0]
    have hdt : t / i ≤ t := Nat.div_le_self t i
    rw [pollLoop_timeout sid polls t i response sr stq hpolls hi (t + 2) 0 st0
      (Nat.zero_le _) hpr0 (by exact Nat.add_le_add_right hdt 2)]
    rfl
  refine ⟨hmain, Nat.succ_le_succ (Nat.zero_le _), ?_⟩
  intro run hrun c hc
  rw [hmain, Option.some_inj] at hrun
  subst hrun
  exact List.eq_of_mem_replicate hc

/-- C8 witness: the timeout theorem applied to a concrete run with a
timeout of one poll-interval unit and a remote side that stays RUNNING
forever: the TimeoutError is raised after exactly two polls (at least
one), and every issued call is a status poll. -/
theorem C8_witness :
    execute_and_wait
      (Json.obj [("statement_id", Json.str "s1"),
                 ("status", Json.obj [("state", Json.str "RUNNING")])])
      (fun _ => Except.ok (Json.obj [("status", Json.obj [("state", Json.str "RUNNING")])]))
      1 1
      = some ⟨Except.error (SqlExn.timeoutError "Query execution timed out after 1 seconds"),
          List.replicate 2 (SqlCall.pollStatus (Json.str "s1"))⟩ :=
  (C8_timeout_behavior
    (Json.obj [("statement_id", Json.str "s1"),
               ("status", Json.obj [("state", Json.str "RUNNING")])])
    (fun _ => Except.ok (Json.obj [("status", Json.obj [("state", Json.str "RUNNING")])]))
    1 1 (Json.str "s1") (Json.str "RUNNING")
    (fun _ => Json.obj [("status", Json.obj [("state", Json.str "RUNNING")])])
    (fun _ => Json.str "RUNNING")
    rfl rfl rfl rfl (by omega)
    (fun _ => ⟨rfl, rfl, rfl⟩)).1

theorem chunksOf_mem_length (c : Nat) (l : List Nat) :
    ∀ ch ∈ chunksOf c l, ch.length ≤ c := by
  induction l using chunksOf.induct c with
  | case1 x hx =>
    intro ch hch
    rw [chunksOf, dif_pos hx] at hch
    simp at hch
  | case2 x hx ih =>
    intro ch hch
    rw [chunksOf, dif_neg hx] at hch
    rcases List.mem_cons.mp hch with h | h
    · subst h
      exact List.length_take_le c x
    · exact ih ch h

theorem chunksOf_length (c : Nat) (hc : c ≠ 0) (l : List Nat) :
    (chunksOf c l).length = (l.length + c - 1) / c := by
  induction l using chunksOf.induct c with
  | case1 x hx =>
    rcases hx with h | h
    · exact absurd h hc
    · have hx0 : x = [] := List.isEmpty_iff.mp h
      subst hx0
      rw [chunksOf_nil]
      simp only [List.length_nil, Nat.zero_add]
      rw [Nat.div_eq_of_lt (by omega)]
  | case2 x hx ih =>
    have hxe : x ≠ [] := by
      intro h0
      exact hx (Or.inr (by simp [h0]))
    have hx1 : 1 ≤ x.length := by
      rcases x with _ | ⟨a, xs⟩
      · exact absurd rfl hxe
      · simp
    rw [chunksOf, dif_neg hx]
    simp only [List.length_cons, ih, List.length_drop]
    have e2 : x.length + c - 1 = (x.length - 1) + c := by omega
    rw [e2, Nat.add_div_right _ (by omega : 0 < c)]
    congr 1
    rcases le_or_lt x.length c with hle | hlt
    · have h1 : x.length - c + c - 1 = c - 1 := by omega
      rw [h1, Nat.div_eq_of_lt (by omega), Nat.div_eq_of_lt (by omega)]
    · have h1 : x.length - c + c - 1 = x.length - 1 := by omega
      rw [h1]

theorem chunksOf_getElem (c : Nat) (l : List Nat) :
    ∀ k, k < (chunksOf c l).length →
      (chunksOf c l)[k]? = some ((l.drop (k * c)).take c) := by
  induction l using chunksOf.induct c with
  | case1 x hx =>
    intro k hk
    rw [chunksOf, dif_pos hx] at hk
    simp at hk
  | case2 x hx ih =>
    intro k hk
    rw [chunksOf, dif_neg hx] at hk ⊢
    cases k with
    | zero => simp
    | succ k =>
      simp only [List.getElem?_cons_succ]
      rw [ih k (by simpa using hk), List.drop_drop, Nat.succ_mul, Nat.add_comm c (k * c)]

theorem addBlocksLoop_ok {ε : Type} (handle : Json) (addResp : Nat → Option ε)
    (hok : ∀ j, addResp j = none) :
    ∀ (chunks : List (List Nat)) (k : Nat),
      addBlocksLoop handle addResp chunks k
        = (none, chunks.map (fun ch => DbfsCall.addBlock handle (b64encode ch))) := by
  intro chunks
  induction chunks with
  | nil => intro k; rfl
  | cons c rest ih =>
    intro k
    rw [addBlocksLoop]
    simp only [hok k, ih (k + 1), List.map_cons]

theorem addBlocksLoop_fail {ε : Type} (handle : Json) (addResp : Nat → Option ε) (e : ε) :
    ∀ (chunks : List (List Nat)) (k d : Nat), d < chunks.length →
      (∀ j, j < d → addResp (k + j) = none) →
      addResp (k + d) = some e →
      addBlocksLoop handle addResp chunks k
        = (some e, (chunks.take (d + 1)).map
            (fun ch => DbfsCall.addBlock handle (b64encode ch))) := by
  intro chunks
  induction chunks with
  | nil =>
    intro k d hd _ _
    simp at hd
  | cons c rest ih =>
    intro k d hd hprev hfail
    cases d with
    | zero =>
      have h0 : addResp k = some e := by
        have := hfail
        rwa [Nat.add_zero] at this
      rw [addBlocksLoop]
      simp only [h0, List.take_succ_cons, List.take_zero, List.map_cons, List.map_nil]
    | succ d =>
      have h0 : addResp k = none := by
        have := hprev 0 (by omega)
        rwa [Nat.add_zero] at this
      rw [addBlocksLoop]
      simp only [h0]
      rw [ih (k + 1) d (by simpa using hd)
        (fun j hj => by
          have hj1 := hprev (j + 1) (by omega)
          have e1 : k + (j + 1) = k + 1 + j := by omega
          rwa [e1] at hj1)
        (by
          have e1 : k + (d + 1) = k + 1 + d := by omega
          rwa [e1] at hfail)]
      simp only [List.take_succ_cons, List.map_cons]

theorem addBlocksLoop_all_addBlock {ε : Type} (handle : Json) (addResp : Nat → Option ε) :
    ∀ (chunks : List (List Nat)) (k : Nat) (x : DbfsCall),
      x ∈ (addBlocksLoop handle addResp chunks k).snd → isCloseCall x = false := by
  intro chunks
  induction chunks with
  | nil =>
    intro k x hx
    simp [addBlocksLoop] at hx
  | cons c rest ih =>
    intro k x hx
    rw [addBlocksLoop] at hx
    cases ha : addResp k with
    | some e =>
      rw [ha] at hx
      simp only [List.mem_singleton] at hx
      subst hx
      rfl
    | none =>
      rw [ha] at hx
      simp only [List.mem_cons] at hx
      rcases hx with h | h
      · subst h
        rfl
      · exact ih (k + 1) x h

theorem upload_large_file_open_ok {ε : Type} (p lp : String) (content : List Nat)
    (ow : Bool) (c : Nat) (fields : List (String × Json))
    (addResp : Nat → Option ε) (closeResp : Nat → Except ε Json) :
    upload_large_file p lp true content ow c (Except.ok (Json.obj fields)) addResp closeResp
      = match addBlocksLoop (dictGetD fields "handle" Json.null) addResp (chunksOf c content) 0 with
        | (some e, addCalls) =>
          ⟨Except.error (UploadErr.remoteError e),
           DbfsCall.createUpload p ow :: addCalls
             ++ [DbfsCall.closeUpload (dictGetD fields "handle" Json.null)]⟩
        | (none, addCalls) =>
          match closeResp 0 with
          | Except.ok r =>
            ⟨Except.ok r,
             DbfsCall.createUpload p ow :: addCalls
               ++ [DbfsCall.closeUpload (dictGetD fields "handle" Json.null)]⟩
          | Except.error e =>
            ⟨Except.error (UploadErr.remoteError e),
             DbfsCall.createUpload p ow :: addCalls
               ++ [DbfsCall.closeUpload (dictGetD fields "handle" Json.null),
                   DbfsCall.closeUpload (dictGetD fields "handle" Json.null)]⟩ := rfl

theorem addBlockDatas_cons_other (x : DbfsCall) (hx : isCloseCall x = true ∨ ∀ h d, x ≠ DbfsCall.addBlock h d)
    (calls : List DbfsCall) : addBlockDatas (x :: calls) = addBlockDatas calls := by
  cases x with
  | createUpload p o => simp [addBlockDatas, List.filterMap_cons]
  | closeUpload h => simp [addBlockDatas, List.filterMap_cons]
  | addBlock h d =>
    rcases hx with h1 | h1
    · simp [isCloseCall] at h1
    · exact absurd rfl (h1 h d)

theorem addBlockDatas_trace (h : Json) (chunks : List (List Nat)) (tail : List DbfsCall)
    (htail : addBlockDatas tail = []) :
    addBlockDatas ((chunks.map (fun ch => DbfsCall.addBlock h (b64encode ch))) ++ tail)
      = chunks.map b64encode := by
  induction chunks with
  | nil => simpa [addBlockDatas] using htail
  | cons c rest ih =>
    simp only [List.map_cons, List.cons_append]
    rw [addBlockDatas, List.filterMap_cons]
    simp only
    rw [← addBlockDatas, ih]

/-- C2 amended: for every upload whose local file exists and whose open
call succeeds with a JSON-object response, at least one and at most two
close calls are issued before the call returns or raises; exactly one
close is issued unless every add-block call succeeds and the commit close
call itself fails, in which case a second best-effort close is issued
(two in total), contradicting the exactly-once wording of the original
claim (see the counterexample). -/
theorem C2_amended_close_counts {ε : Type} (dbfs_path local_file_path : String)
    (content : List Nat) (overwrite : Bool) (buffer_size : Nat)
    (fields : List (String × Json)) (addResp : Nat → Option ε)
    (closeResp : Nat → Except ε Json) :
    1 ≤ (upload_large_file dbfs_path local_file_path true content overwrite buffer_size
        (Except.ok (Json.obj fields)) addResp closeResp).calls.countP isCloseCall
    ∧ (upload_large_file dbfs_path local_file_path true content overwrite buffer_size
        (Except.ok (Json.obj fields)) addResp closeResp).calls.countP isCloseCall ≤ 2
    ∧ ((upload_large_file dbfs_path local_file_path true content overwrite buffer_size
          (Except.ok (Json.obj fields)) addResp closeResp).calls.countP isCloseCall = 2 →
        (addBlocksLoop (dictGetD fields "handle" Json.null) addResp
          (chunksOf buffer_size content) 0).fst = none
        ∧ ∃ er, closeResp 0 = Except.error er) := by
  rw [upload_large_file_open_ok]
  cases haB : addBlocksLoop (dictGetD fields "handle" Json.null) addResp
      (chunksOf buffer_size content) 0 with
  | mk ofst addCalls =>
    have hzero : addCalls.countP isCloseCall = 0 :=
      List.countP_eq_zero.mpr (fun x hx => by
        rw [addBlocksLoop_all_addBlock (dictGetD fields "handle" Json.null) addResp
          (chunksOf buffer_size content) 0 x (by rw [haB]; exact hx)]
        simp)
    cases ofst with
    | some e =>
      simp [List.countP_cons, List.countP_append, List.countP_nil, hzero, isCloseCall]
    | none =>
      cases hcr : closeResp 0 with
      | ok r =>
        simp [List.countP_cons, List.countP_append, List.countP_nil, hzero, isCloseCall]
      | error er =>
        simp [List.countP_cons, List.countP_append, List.countP_nil, hzero, isCloseCall]

/-- C2 witness: the amended theorem applied to a concrete upload whose
commit close fails: the close count is between one and two, and being two
implies the add-blocks succeeded and the first close failed. -/
theorem C2_witness :
    1 ≤ (upload_large_file "/dbfs/w.bin" "/local/w.bin" true [9] true 4
        (Except.ok (Json.obj [("handle", Json.num 3)]))
        (fun _ => none) (fun _ => Except.error "boom")).calls.countP isCloseCall
    ∧ (upload_large_file "/dbfs/w.bin" "/local/w.bin" true [9] true 4
        (Except.ok (Json.obj [("handle", Json.num 3)]))
        (fun _ => none) (fun _ => Except.error "boom")).calls.countP isCloseCall ≤ 2
    ∧ ((upload_large_file "/dbfs/w.bin" "/local/w.bin" true [9] true 4
          (Except.ok (Json.obj [("handle", Json.num 3)]))
          (fun _ => none) (fun _ => Except.error "boom")).calls.countP isCloseCall = 2 →
        (addBlocksLoop (dictGetD [("handle", Json.num 3)] "handle" Json.null)
          (fun _ => (none : Option String)) (chunksOf 4 [9]) 0).fst = none
        ∧ ∃ er, (fun _ => (Except.error "boom" : Except String Json)) 0 = Except.error er) :=
  C2_amended_close_counts "/dbfs/w.bin" "/local/w.bin" [9] true 4
    [("handle", Json.num 3)] (fun _ => none) (fun _ => Except.error "boom")

/-- C6: if the add-block call for chunk d is the first to fail, the run
raises that same error, the trace is the create call, the add-block calls
for chunks zero through d in order, and then exactly one close call (for
any close oracle, whose outcome is ignored); and if the open call itself
fails, its error propagates and no close call is issued at all. -/
theorem C6_addblock_failure_cleanup {ε : Type} (dbfs_path local_file_path : String)
    (content : List Nat) (overwrite : Bool) (buffer_size : Nat)
    (fields : List (String × Json)) (addResp : Nat → Option ε)
    (closeResp : Nat → Except ε Json) (e eo : ε) (d : Nat)
    (hd : d < (chunksOf buffer_size content).length)
    (hprev : ∀ j, j < d → addResp j = none)
    (hfail : addResp d = some e) :
    upload_large_file dbfs_path local_file_path true content overwrite buffer_size
        (Except.ok (Json.obj fields)) addResp closeResp
      = ⟨Except.error (UploadErr.remoteError e),
         DbfsCall.createUpload dbfs_path overwrite ::
           ((chunksOf buffer_size content).take (d + 1)).map
             (fun ch => DbfsCall.addBlock (dictGetD fields "handle" Json.null) (b64encode ch))
           ++ [DbfsCall.closeUpload (dictGetD fields "handle" Json.null)]⟩
    ∧ (upload_large_file dbfs_path local_file_path true content overwrite buffer_size
        (Except.ok (Json.obj fields)) addResp closeResp).calls.countP isCloseCall = 1
    ∧ upload_large_file dbfs_path local_file_path true content overwrite buffer_size
        (Except.error eo) addResp closeResp
      = ⟨Except.error (UploadErr.remoteError eo), [DbfsCall.createUpload dbfs_path overwrite]⟩ := by
  have haB := addBlocksLoop_fail (dictGetD fields "handle" Json.null) addResp e
    (chunksOf buffer_size content) 0 d hd
    (fun j hj => by rw [Nat.zero_add]; exact hprev j hj)
    (by rw [Nat.zero_add]; exact hfail)
  have hmain : upload_large_file dbfs_path local_file_path true content overwrite buffer_size
      (Except.ok (Json.obj fields)) addResp closeResp
      = ⟨Except.error (UploadErr.remoteError e),
         DbfsCall.createUpload dbfs_path overwrite ::
           ((chunksOf buffer_size content).take (d + 1)).map
             (fun ch => DbfsCall.addBlock (dictGetD fields "handle" Json.null) (b64encode ch))
           ++ [DbfsCall.closeUpload (dictGetD fields "handle" Json.null)]⟩ := by
    rw [upload_large_file_open_ok]
    simp only [haB]
  refine ⟨hmain, ?_, rfl⟩
  rw [hmain]
  simp [List.countP_cons, List.countP_append, List.countP_nil, isCloseCall]
  intro a ha
  obtain ⟨ch, _, hx2⟩ := List.mem_map.mp (List.take_subset _ _ ha)
  subst hx2
  rfl

/-- Evaluation of the chunking of the five-byte example source with chunk
size two, used by concrete upload witnesses. -/
theorem chunksOf_two_ex : chunksOf 2 [1, 2, 3, 4, 5] = [[1, 2], [3, 4], [5]] := by
  have h1 : chunksOf 2 [1, 2, 3, 4, 5] = [1, 2] :: chunksOf 2 [3, 4, 5] := by
    rw [chunksOf_cons 2 _ (by decide) (by decide)]
    rfl
  have h2 : chunksOf 2 [3, 4, 5] = [3, 4] :: chunksOf 2 [5] := by
    rw [chunksOf_cons 2 _ (by decide) (by decide)]
    rfl
  have h3 : chunksOf 2 [5] = [5] :: chunksOf 2 [] := by
    rw [chunksOf_cons 2 _ (by decide) (by decide)]
    rfl
  rw [h1, h2, h3, chunksOf_nil]

/-- C6 witness: the cleanup theorem applied to a concrete upload of five
bytes in chunks of two whose second add-block fails: the add error
propagates, the trace ends with exactly one close after the two add
calls, and a failing open yields no close. -/
theorem C6_witness :
    upload_large_file "/dbfs/f.bin" "/local/f.bin" true [1, 2, 3, 4, 5] true 2
      (Except.ok (Json.obj [("handle", Json.num 7)]))
      (fun k => if k = 1 then some "add boom" else none)
      (fun _ => Except.error "close boom")
      = ⟨Except.error (UploadErr.remoteError "add boom"),
         [DbfsCall.createUpload "/dbfs/f.bin" true,
          DbfsCall.addBlock (Json.num 7) (b64encode [1, 2]),
          DbfsCall.addBlock (Json.num 7) (b64encode [3, 4]),
          DbfsCall.closeUpload (Json.num 7)]⟩
    ∧ upload_large_file "/dbfs/f.bin" "/local/f.bin" true [1, 2, 3, 4, 5] true 2
        (Except.error "open boom")
        (fun k => if k = 1 then some "add boom" else none)
        (fun _ => Except.error "close boom")
      = ⟨Except.error (UploadErr.remoteError "open boom"),
         [DbfsCall.createUpload "/dbfs/f.bin" true]⟩ := by
  have h := C6_addblock_failure_cleanup "/dbfs/f.bin" "/local/f.bin" [1, 2, 3, 4, 5] true 2
    [("handle", Json.num 7)]
    (fun k => if k = 1 then some "add boom" else none)
    (fun _ => Except.error "close boom") "add boom" "open boom" 1
    (by rw [chunksOf_two_ex]; decide)
    (fun j hj => by
      have hj0 : j = 0 := by omega
      subst hj0
      rfl)
    rfl
  refine ⟨?_, h.2.2⟩
  rw [h.1, chunksOf_two_ex]
  rfl

/-- C5: for an upload whose local file exists, whose open call succeeds
with a JSON object, whose chunk size is positive and whose add-block
calls all succeed, the add-block calls issued carry exactly the base64
encodings of the chunks of the source, in source order; the number of
chunks (and hence of add-block calls) is the ceiling of N divided by C
for a source of N bytes and chunk size C, the k-th chunk (zero-based) is
the byte slice from k times C of length at most C, and every chunk
carries at most C bytes. -/
theorem C5_chunk_calls {ε : Type} (dbfs_path local_file_path : String)
    (content : List Nat) (overwrite : Bool) (buffer_size : Nat)
    (fields : List (String × Json)) (addResp : Nat → Option ε)
    (closeResp : Nat → Except ε Json)
    (hc : buffer_size ≠ 0)
    (hadds : ∀ j, addResp j = none) :
    addBlockDatas (upload_large_file dbfs_path local_file_path true content overwrite
        buffer_size (Except.ok (Json.obj fields)) addResp closeResp).calls
      = (chunksOf buffer_size content).map b64encode
    ∧ (chunksOf buffer_size content).length
      = (content.length + buffer_size - 1) / buffer_size
    ∧ (∀ k, k < (chunksOf buffer_size content).length →
        (chunksOf buffer_size content)[k]?
          = some ((content.drop (k * buffer_size)).take buffer_size))
    ∧ (∀ ch ∈ chunksOf buffer_size content, ch.length ≤ buffer_size) := by
  refine ⟨?_, chunksOf_length buffer_size hc content,
    chunksOf_getElem buffer_size content, chunksOf_mem_length buffer_size content⟩
  rw [upload_large_file_open_ok]
  rw [addBlocksLoop_ok (dictGetD fields "handle" Json.null) addResp hadds
    (chunksOf buffer_size content) 0]
  cases hcr : closeResp 0 with
  | ok r =>
    simp only
    rw [List.cons_append, addBlockDatas_cons_other _ (Or.inr (fun h d hco => DbfsCall.noConfusion hco)),
      addBlockDatas_trace]
    rfl
  | error er =>
    simp only
    rw [List.cons_append, addBlockDatas_cons_other _ (Or.inr (fun h d hco => DbfsCall.noConfusion hco)),
      addBlockDatas_trace]
    rfl

/-- C5 witness: the chunking theorem applied to a concrete upload of the
five-byte source 1 2 3 4 5 with chunk size two: three add-block calls are
issued, carrying the base64 encodings of the chunks 1 2, 3 4 and 5 in
order. -/
theorem C5_witness :
    addBlockDatas (upload_large_file "/dbfs/c.bin" "/local/c.bin" true [1, 2, 3, 4, 5] true 2
        ((Except.ok (Json.obj [("handle", Json.num 7)])) : Except String Json)
        (fun _ => none) (fun _ => Except.ok (Json.obj []))).calls
      = [b64encode [1, 2], b64encode [3, 4], b64encode [5]]
    ∧ (chunksOf 2 [1, 2, 3, 4, 5]).length = 3 := by
  have h := C5_chunk_calls "/dbfs/c.bin" "/local/c.bin" [1, 2, 3, 4, 5] true 2
    [("handle", Json.num 7)] (fun _ => none)
    (fun _ => (Except.ok (Json.obj []) : Except String Json))
    (by decide) (fun _ => rfl)
  constructor
  · rw [h.1, chunksOf_two_ex]
    rfl
  · rw [h.2.1]
    decide

/-- C4 amended: make_api_request raises a DatabricksAPIError when no
response is reached, when a 4xx or 5xx status is returned (3xx statuses
pass raise_for_status and are treated as success), and when a success
response body fails to decode; for a 4xx or 5xx body that decodes to a
JSON object the error field is folded into the message and the decoded
object kept as the raw payload, for an undecodable body the raw text is
kept as the raw payload, and an empty error body keeps the empty text;
the only other exception that can escape is an AttributeError, raised
exactly when a 4xx or 5xx body decodes to JSON that is not an object (see
the counterexample). -/
theorem C4_amended_transport_errors :
    (∀ es : String, make_api_request (HttpOutcome.noResponse es)
      = Except.error (TransportExn.apiError ⟨"API request failed: " ++ es, none, none⟩))
    ∧ (∀ (st : Nat) (eStr : String) (kvs : List (String × Json)),
        400 ≤ st → st < 600 →
        make_api_request (HttpOutcome.gotResponse st (Body.jsonBody (Json.obj kvs)) eStr)
          = Except.error (TransportExn.apiError
              ⟨"API request failed: " ++ eStr ++ " - "
                 ++ pyStr (dictGetD kvs "error" (Json.str "")),
               some st, some (RawPayload.jsonPayload (Json.obj kvs))⟩))
    ∧ (∀ (st : Nat) (eStr t : String),
        400 ≤ st → st < 600 →
        make_api_request (HttpOutcome.gotResponse st (Body.textBody t) eStr)
          = Except.error (TransportExn.apiError
              ⟨"API request failed: " ++ eStr, some st, some (RawPayload.textPayload t)⟩))
    ∧ (∀ (st : Nat) (eStr : String),
        400 ≤ st → st < 600 →
        make_api_request (HttpOutcome.gotResponse st Body.emptyBody eStr)
          = Except.error (TransportExn.apiError
              ⟨"API request failed: " ++ eStr, some st, some (RawPayload.textPayload "")⟩))
    ∧ (∀ (st : Nat) (eStr t : String),
        ¬ (400 ≤ st ∧ st < 600) →
        make_api_request (HttpOutcome.gotResponse st (Body.textBody t) eStr)
          = Except.error (TransportExn.apiError
              ⟨"API request failed: " ++ eStr, none, none⟩))
    ∧ (∀ o : HttpOutcome, make_api_request o = Except.error TransportExn.attributeError →
        ∃ (st : Nat) (j : Json) (eStr : String),
          o = HttpOutcome.gotResponse st (Body.jsonBody j) eStr
          ∧ 400 ≤ st ∧ st < 600 ∧ (∀ kvs, j ≠ Json.obj kvs)) := by
  refine ⟨fun es => rfl, ?_, ?_, ?_, ?_, ?_⟩
  · intro st eStr kvs h1 h2
    rw [make_api_request, if_pos ⟨h1, h2⟩]
  · intro st eStr t h1 h2
    rw [make_api_request, if_pos ⟨h1, h2⟩]
  · intro st eStr h1 h2
    rw [make_api_request, if_pos ⟨h1, h2⟩]
  · intro st eStr t h46
    rw [make_api_request, if_neg h46]
  · intro o ho
    cases o with
    | noResponse es => simp [make_api_request] at ho
    | gotResponse st body eStr =>
      simp only [make_api_request] at ho
      by_cases h46 : 400 ≤ st ∧ st < 600
      · rw [if_pos h46] at ho
        cases body with
        | emptyBody => simp at ho
        | textBody t => simp at ho
        | jsonBody j =>
          cases j with
          | obj kvs => simp at ho
          | null =>
            exact ⟨st, Json.null, eStr, rfl, h46.1, h46.2, fun kvs h => Json.noConfusion h⟩
          | bool b =>
            exact ⟨st, Json.bool b, eStr, rfl, h46.1, h46.2, fun kvs h => Json.noConfusion h⟩
          | num n =>
            exact ⟨st, Json.num n, eStr, rfl, h46.1, h46.2, fun kvs h => Json.noConfusion h⟩
          | str s =>
            exact ⟨st, Json.str s, eStr, rfl, h46.1, h46.2, fun kvs h => Json.noConfusion h⟩
          | arr items =>
            exact ⟨st, Json.arr items, eStr, rfl, h46.1, h46.2, fun kvs h => Json.noConfusion h⟩
      · rw [if_neg h46] at ho
        cases body with
        | emptyBody => simp at ho
        | jsonBody j => simp at ho
        | textBody t => simp at ho

/-- C4 witness: the amended theorem applied to a 404 response whose body
is a JSON object with an error field: the DatabricksAPIError folds the
error detail into the message and keeps the decoded body as the raw
payload. -/
theorem C4_witness :
    make_api_request (HttpOutcome.gotResponse 404
        (Body.jsonBody (Json.obj [("error", Json.str "RESOURCE_DOES_NOT_EXIST")]))
        "404 Client Error: Not Found")
      = Except.error (TransportExn.apiError
          ⟨"API request failed: 404 Client Error: Not Found - RESOURCE_DOES_NOT_EXIST",
           some 404,
           some (RawPayload.jsonPayload
             (Json.obj [("error", Json.str "RESOURCE_DOES_NOT_EXIST")]))⟩) := by
  rw [C4_amended_transport_errors.2.1 404 "404 Client Error: Not Found"
    [("error", Json.str "RESOURCE_DOES_NOT_EXIST")] (by omega) (by omega)]
  rfl
